import Mathlib

/-!
Shallow embedding of the stock-dip monitoring bot (src/stock_bot.py).

Conventions of the embedding:
- Python floats are modelled as rationals; the literal 1.2 and the
  thresholds are exact in both views for the comparisons the code makes.
- Timestamps and timedeltas are integers counting seconds;
  timedelta(hours=4) is 14400 seconds, datetime.now() is passed in as an
  explicit argument wherever the source calls it.
- Python dicts with insertion order are association lists; dict.get is
  association lookup; dict assignment updates in place or appends.
- A Python function that may raise returns an Option, none being the
  exception path; logging calls become explicit events in an event list.
-/

namespace StockBot

/-- One entry of watched_stocks: a threshold in percent and a display name. -/
structure Entry where
  threshold : ℚ
  name : String
deriving Repr, DecidableEq

/-- The dict returned by get_stock_data (src/stock_bot.py lines 79-88). -/
structure StockData where
  current_price : ℚ
  previous_close : ℚ
  pct_change : ℚ
  volume : ℤ
  avg_volume : ℤ
  ma_20 : ℚ
  timestamp : ℤ
deriving Repr, DecidableEq

/-- A per-symbol record of price_history: the current_data and last_alert keys. -/
structure HistEntry where
  current_data : Option StockData
  last_alert : Option ℤ
deriving Repr, DecidableEq

/-- The empty dict placed at price_history[symbol] on first touch (line 153). -/
def emptyHist : HistEntry := { current_data := none, last_alert := none }

/-- watched_stocks: insertion-ordered mapping symbol to Entry. -/
abbrev Watched := List (String × Entry)

/-- price_history: insertion-ordered mapping symbol to HistEntry. -/
abbrev PriceHistory := List (String × HistEntry)

/-- Association-list lookup, the semantics of dict indexing / dict.get. -/
def alookup {α : Type} (l : List (String × α)) (k : String) : Option α :=
  match l with
  | [] => none
  | (k0, v) :: rest => if k0 = k then some v else alookup rest k

/-- Dict assignment d[k] = v: update the existing key in place, else append
(Python dicts keep insertion order and appending is how a new key enters). -/
def aset {α : Type} (l : List (String × α)) (k : String) (v : α) : List (String × α) :=
  match l with
  | [] => [(k, v)]
  | (k0, v0) :: rest => if k0 = k then (k0, v) :: rest else (k0, v0) :: aset rest k v

/-- price_history.get(symbol, dict()).get(last_alert) (line 99). -/
def lastAlertOf (h : PriceHistory) (symbol : String) : Option ℤ :=
  match alookup h symbol with
  | none => none
  | some e => e.last_alert

/-- timedelta(hours=4) in seconds. -/
def fourHours : ℤ := 14400

/-- The volume ratio of line 98: volume / avg_volume when avg_volume > 0, else 1. -/
def volumeRatio (data : StockData) : ℚ :=
  if data.avg_volume > 0 then (data.volume : ℚ) / (data.avg_volume : ℚ) else 1

/-- StockDipMonitor.is_significant_dip (lines 94-103), with the ambient reads
made explicit: threshold is the entry looked up from watched_stocks,
last_alert comes from price_history, now stands for datetime.now(). -/
def is_significant_dip (threshold : ℚ) (data : StockData)
    (last_alert : Option ℤ) (now : ℤ) : Bool :=
  if data.pct_change ≤ -threshold then
    let volume_ratio := volumeRatio data
    match last_alert with
    | some la => if now - la < fourHours then false else decide (volume_ratio > 1.2)
    | none => decide (volume_ratio > 1.2)
  else false

/-- is_significant_dip as the source writes it, reading self state: the
threshold lookup on line 95 raises KeyError when the symbol is absent from
watched_stocks, hence the Option result (none is the KeyError path). -/
def is_significant_dip_s (watched : Watched) (history : PriceHistory)
    (now : ℤ) (symbol : String) (data : StockData) : Option Bool :=
  match alookup watched symbol with
  | none => none
  | some e => some (is_significant_dip e.threshold data (lastAlertOf history symbol) now)

/-- One row of the pandas history frame: the Close and Volume columns. -/
structure Row where
  close : ℚ
  volume : ℚ
deriving Repr, DecidableEq

/-- Python int() on a float: truncation toward zero. -/
def pyInt (q : ℚ) : ℤ := q.num.tdiv (q.den : ℤ)

/-- Round a rational to the nearest integer, ties to the even integer
(the tie rule of Python round on floats). -/
def halfEven (q : ℚ) : ℤ :=
  if q - ⌊q⌋ = 1/2 then (if 2 ∣ ⌊q⌋ then ⌊q⌋ else ⌊q⌋ + 1) else round q

/-- Python round(x, 2): round to two decimal places. -/
def pyRound2 (q : ℚ) : ℚ := (halfEven (q * 100) : ℚ) / 100

/-- pandas Series.mean(): sum divided by length. -/
def pymean (xs : List ℚ) : ℚ := xs.sum / (xs.length : ℚ)

/-- StockDipMonitor.get_stock_data (lines 60-92). The argument fetched is
the outcome of the two yfinance history calls: none models an exception in
the try block (logged, returns None), some gives the 5d frame and the 1mo
frame. An empty 5d frame is also the None path (lines 65-67). iloc[-1] and
iloc[-2] become positional access from the end; the rolling 20-day mean at
iloc[-1] is the mean of the last 20 closes. now stands for datetime.now(). -/
def get_stock_data (fetched : Option (List Row × List Row)) (now : ℤ) :
    Option StockData :=
  match fetched with
  | none => none
  | some (hist, hist_20d) =>
    if hist.isEmpty then none
    else
      let closes := hist.map Row.close
      let volumes := hist.map Row.volume
      let current_price := (closes.getLast?).getD 0
      let previous_close :=
        if 2 ≤ hist.length then (closes.get? (hist.length - 2)).getD 0
        else current_price
      let pct_change := ((current_price - previous_close) / previous_close) * 100
      let volume := (volumes.getLast?).getD 0
      let avg_volume := pymean volumes
      let ma_20 :=
        if 20 ≤ hist_20d.length then
          pymean ((hist_20d.map Row.close).drop (hist_20d.length - 20))
        else current_price
      some {
        current_price := pyRound2 current_price
        previous_close := pyRound2 previous_close
        pct_change := pyRound2 pct_change
        volume := pyInt volume
        avg_volume := pyInt avg_volume
        ma_20 := pyRound2 ma_20
        timestamp := now }

/-- The three severity tiers of generate_alert_message (lines 108-113). -/
inductive Severity where
  | major
  | significant
  | detected
deriving Repr, DecidableEq

/-- The severity classification chain of generate_alert_message (lines 108-113):
pct_change at most -8 is MAJOR DIP ALERT, else at most -5 is SIGNIFICANT DIP,
else DIP DETECTED. -/
def alertSeverity (pct_change : ℚ) : Severity :=
  if pct_change ≤ -8 then .major
  else if pct_change ≤ -5 then .significant
  else .detected

/-- Observable actions logged or performed while a sweep runs. -/
inductive Event where
  | fetchFailed (symbol : String)
  | delivered (symbol : String)
  | deliveryFailed (symbol : String)
  | alertFired (symbol : String)
  | itemError (symbol : String)
deriving Repr, DecidableEq

/-- The environment a sweep runs against: the result of get_stock_data per
symbol (none = fetch failure, already logged inside get_stock_data), whether
the Telegram send succeeds for a given message, and the frozen clock. -/
structure Env where
  fetch : String → Option StockData
  deliver : String → Bool
  now : ℤ

/-- StockDipMonitor.send_alert (lines 133-142): attempts delivery, logs the
outcome, and swallows any exception, so it always returns normally. -/
def send_alert (env : Env) (symbol : String) : List Event :=
  if env.deliver symbol then [Event.delivered symbol] else [Event.deliveryFailed symbol]

/-- Lines 152-154: ensure price_history[symbol] exists and set its
current_data key, leaving last_alert as it was. -/
def storeCurrent (h : PriceHistory) (symbol : String) (data : StockData) :
    PriceHistory :=
  aset h symbol { (alookup h symbol).getD emptyHist with current_data := some data }

/-- Line 159: price_history[symbol][last_alert] = datetime.now(). -/
def stampAlert (h : PriceHistory) (symbol : String) (now : ℤ) : PriceHistory :=
  aset h symbol { (alookup h symbol).getD emptyHist with last_alert := some now }

/-- The body of the per-symbol loop iteration of check_stocks (lines 147-165):
fetch, store current_data, evaluate the dip test, and on fire send the alert
and stamp last_alert with datetime.now(). The surrounding except Exception
catches anything the body raises (here only the KeyError path of
is_significant_dip_s) and records it as an itemError event. Returns the
updated price_history and the events of this iteration. -/
def processSymbol (env : Env) (watched : Watched) (h : PriceHistory)
    (symbol : String) : PriceHistory × List Event :=
  match env.fetch symbol with
  | none => (h, [Event.fetchFailed symbol])
  | some data =>
    match is_significant_dip_s watched (storeCurrent h symbol data)
        env.now symbol data with
    | none => (storeCurrent h symbol data, [Event.itemError symbol])
    | some false => (storeCurrent h symbol data, [])
    | some true =>
      (stampAlert (storeCurrent h symbol data) symbol env.now,
       send_alert env symbol ++ [Event.alertFired symbol])

/-- The loop of check_stocks over a list of symbols, threading price_history
and concatenating events in iteration order. -/
def checkStocksGo (env : Env) (watched : Watched) :
    List String → PriceHistory → PriceHistory × List Event
  | [], h => (h, [])
  | symbol :: rest, h =>
    let p := processSymbol env watched h symbol
    let q := checkStocksGo env watched rest p.1
    (q.1, p.2 ++ q.2)

/-- SweepResult as the specification describes it (spec section 3): counts
plus an ordered error sequence. The source never builds such a value; the
type exists to state what the return value of check_stocks would have to be. -/
structure SweepResult where
  itemsChecked : ℕ
  alertsFired : ℕ
  errors : List (String × String)
deriving Repr, DecidableEq

/-- What a call of check_stocks (lines 144-167) produces: the price_history
after the loop, the events along the way, and the Python return value of the
function. The body has no return statement on any path, so ret is none. -/
structure SweepRun where
  history : PriceHistory
  events : List Event
  ret : Option SweepResult
deriving Repr, DecidableEq

/-- StockDipMonitor.check_stocks (lines 144-167): iterate the keys of
watched_stocks in insertion order, process every symbol, return None. -/
def check_stocks (env : Env) (watched : Watched) (h : PriceHistory) : SweepRun :=
  let (h2, ev) := checkStocksGo env watched (watched.map Prod.fst) h
  { history := h2, events := ev, ret := none }

/-! ### Run guard: sequential exit-path model

manual_check_command (lines 244-256) and the body of one periodic tick
(lines 267-275) guard check_stocks with the is_checking flag. The outcome
of the awaited check_stocks call is abstracted to three cases: a normal
return, an exception (an Exception subclass, caught by the except clause),
or asyncio.CancelledError (a BaseException since Python 3.8, which the
except Exception clause does not catch). In every case the finally clause
runs before control leaves the function. -/

inductive SweepOutcome where
  | ok
  | exc
  | cancelled
deriving Repr, DecidableEq

/-- The guard-relevant result of one trigger invocation: the value of
is_checking when control has left the function, whether the sweep body ran,
and whether an exception escaped the invocation. -/
structure GuardResult where
  is_checking : Bool
  ran : Bool
  raised : Bool
deriving Repr, DecidableEq

/-- TelegramStockBot.manual_check_command (lines 244-256): reject when
is_checking is set (flag untouched); otherwise set the flag, await
check_stocks under try/except Exception/finally, and clear the flag in the
finally clause on the normal, exception and cancellation paths alike. -/
def manual_check_command (is_checking : Bool) (outcome : SweepOutcome) :
    GuardResult :=
  if is_checking then
    { is_checking := is_checking, ran := false, raised := false }
  else
    let raised :=
      match outcome with
      | .ok => false
      | .exc => false
      | .cancelled => true
    { is_checking := false, ran := true, raised := raised }

/-- The sweep portion of one iteration of periodic_stock_check
(lines 267-275): skip when is_checking is set, otherwise set the flag and
run check_stocks under try/except Exception/finally; the finally clause
clears the flag on every path, and a CancelledError continues to the outer
handler of the loop (lines 277-279). -/
def periodic_tick (is_checking : Bool) (outcome : SweepOutcome) : GuardResult :=
  if is_checking then
    { is_checking := is_checking, ran := false, raised := false }
  else
    let raised :=
      match outcome with
      | .ok => false
      | .exc => false
      | .cancelled => true
    { is_checking := false, ran := true, raised := raised }

/-! ### Run guard: interleaved acquisition model

The asyncio event loop runs one task at a time; a task yields control only
at an await. Atomicity of the embedding therefore follows the await points
of the source:

- manual_check_command reads is_checking on line 245, then awaits
  reply_text on line 248 (a suspension point at which other tasks run),
  and only then sets is_checking on line 249 and awaits check_stocks.
- the periodic tick reads is_checking on line 267 and sets it on line 268
  with no await between them, then awaits check_stocks.

Each task is a list of atomic segments over the shared state; a schedule
interleaves them. started counts check_stocks invocations begun, active
the sweeps currently inside check_stocks, maxActive the high-water mark
of active. -/

structure BotState where
  is_checking : Bool
  started : ℕ
  active : ℕ
  maxActive : ℕ
deriving Repr, DecidableEq

def initBotState : BotState :=
  { is_checking := false, started := 0, active := 0, maxActive := 0 }

/-- The atomic segments of the two trigger tasks. -/
inductive Seg where
  | mCheck
  | mAcquireRun
  | mFinish
  | pCheckAcquireRun
  | pFinish
deriving Repr, DecidableEq

/-- Begin executing check_stocks: bookkeeping shared by both tasks. -/
def enterSweep (s : BotState) : BotState :=
  { s with started := s.started + 1, active := s.active + 1,
           maxActive := max s.maxActive (s.active + 1) }

/-- Effect of one segment; the Bool is false when the rest of the task is
abandoned (the early return of the busy branch, or the tick skipping). -/
def execSeg (seg : Seg) (s : BotState) : BotState × Bool :=
  match seg with
  | .mCheck => if s.is_checking then (s, false) else (s, true)
  | .mAcquireRun => (enterSweep { s with is_checking := true }, true)
  | .mFinish => ({ s with active := s.active - 1, is_checking := false }, true)
  | .pCheckAcquireRun =>
    if s.is_checking then (s, false)
    else (enterSweep { s with is_checking := true }, true)
  | .pFinish => ({ s with active := s.active - 1, is_checking := false }, true)

/-- manual_check_command as a task: busy check, suspension at the reply
await, then acquire and run, then the completion reply and finally clause. -/
def manualTask : List Seg := [.mCheck, .mAcquireRun, .mFinish]

/-- One periodic tick as a task: check-and-acquire (no suspension between
line 267 and line 268), run, then the finally clause. -/
def periodicTask : List Seg := [.pCheckAcquireRun, .pFinish]

/-- Run a schedule: each entry picks a task by index and executes its next
pending segment (nothing happens if that task has finished). -/
def runSched : List ℕ → List (List Seg) → BotState → BotState
  | [], _, s => s
  | i :: rest, tasks, s =>
    match tasks.get? i with
    | some (seg :: segs) =>
      let (s1, cont) := execSeg seg s
      runSched rest (tasks.set i (if cont then segs else [])) s1
    | _ => runSched rest tasks s

/-! ### Watchlist iteration under concurrent mutation

check_stocks iterates self.watched_stocks.keys() directly (line 146): the
live dict, not a copy. A CPython dict iterator records the dict size when
created and raises RuntimeError from next() when the size has changed.
add_stock_command (line 226) assigns self.monitor.watched_stocks[symbol],
which appends a new key (or updates an existing one in place). The sweep
suspends between iterations (awaits on lines 148, 158, 162), so a command
handler can run mid-iteration. -/

/-- A sweep mid-iteration over the live key view: the live key list, the
size recorded when the iterator was created, the position, whether the
iterator has raised RuntimeError, and the symbols processed so far. -/
structure IterState where
  keys : List String
  size0 : ℕ
  pos : ℕ
  iterError : Bool
  processed : List String
deriving Repr, DecidableEq

/-- Start of the for loop on line 146: create the keys iterator. -/
def startIter (keys : List String) : IterState :=
  { keys := keys, size0 := keys.length, pos := 0, iterError := false,
    processed := [] }

/-- One loop iteration: next() checks the size guard, then the body
processes the yielded symbol. The RuntimeError from next() is raised at
the for statement, outside the per-item try, so it ends the iteration. -/
def sweepNext (s : IterState) : IterState :=
  if s.iterError then s
  else if s.keys.length ≠ s.size0 then { s with iterError := true }
  else
    match s.keys.get? s.pos with
    | some symbol => { s with processed := s.processed ++ [symbol], pos := s.pos + 1 }
    | none => s

/-- add_stock_command while the sweep is suspended: dict assignment on the
live watched_stocks, appending a fresh key or updating an existing one. -/
def addStockKey (symbol : String) (s : IterState) : IterState :=
  if symbol ∈ s.keys then s else { s with keys := s.keys ++ [symbol] }

/-! ### Concrete instances used by counterexamples and witnesses -/

/-- A qualifying observation: down 4.5 percent on 1.5 times average volume. -/
def dC1 : StockData :=
  { current_price := 97, previous_close := 100, pct_change := -4.5,
    volume := 150000, avg_volume := 100000, ma_20 := 100, timestamp := 0 }

/-- A deeper qualifying observation: down 6 percent on twice average volume. -/
def dC4 : StockData :=
  { current_price := 94, previous_close := 100, pct_change := -6,
    volume := 200000, avg_volume := 100000, ma_20 := 100, timestamp := 1000 }

/-- A two-item watchlist whose first fetch will fail. -/
def wC4 : Watched := [("AAPL", ⟨3, "Apple"⟩), ("TSLA", ⟨5, "Tesla"⟩)]

/-- Environment for the failure-isolation runs: the AAPL fetch fails, the
TSLA fetch succeeds with dC4, every delivery succeeds. -/
def envC4 : Env :=
  { fetch := fun s => if s = "TSLA" then some dC4 else none,
    deliver := fun _ => true, now := 1000 }

/-- Same observation for the C5 witness. -/
def dC5 : StockData := dC4

/-- Environment for the C5 witness run. -/
def envC5 : Env :=
  { fetch := fun s => if s = "TSLA" then some dC5 else none,
    deliver := fun _ => true, now := 1000 }

/-- Environment for the C6 witness: the fetch returns dC1 for every symbol
and every delivery fails. -/
def envC6 : Env :=
  { fetch := fun _ => some dC1, deliver := fun _ => false, now := 2000 }

/-! ## Helper lemmas -/

theorem alookup_aset_self {α : Type} (l : List (String × α)) (k : String) (v : α) :
    alookup (aset l k v) k = some v := by
  induction l with
  | nil => simp [aset, alookup]
  | cons p rest ih =>
    obtain ⟨k0, v0⟩ := p
    by_cases hk : k0 = k
    · simp [aset, alookup, hk]
    · simp [aset, alookup, hk, ih]

theorem lastAlertOf_storeCurrent (h : PriceHistory) (symbol : String)
    (data : StockData) :
    lastAlertOf (storeCurrent h symbol data) symbol = lastAlertOf h symbol := by
  simp only [lastAlertOf, storeCurrent, alookup_aset_self]
  cases alookup h symbol <;> simp [emptyHist]

theorem lastAlertOf_stampAlert (h : PriceHistory) (symbol : String) (now : ℤ) :
    lastAlertOf (stampAlert h symbol now) symbol = some now := by
  simp only [lastAlertOf, stampAlert, alookup_aset_self]

theorem is_significant_dip_eq_true (t : ℚ) (data : StockData)
    (la : Option ℤ) (now : ℤ) :
    is_significant_dip t data la now = true ↔
      data.pct_change ≤ -t ∧ volumeRatio data > 1.2 ∧
        ¬∃ l, la = some l ∧ now - l < fourHours := by
  unfold is_significant_dip
  cases la with
  | none => by_cases hd : data.pct_change ≤ -t <;> simp [hd]
  | some l =>
    by_cases hd : data.pct_change ≤ -t
    · by_cases hc : now - l < fourHours <;> simp [hd, hc]
    · simp [hd]

/-! ## Claim theorems -/

/-- C1: is_significant_dip returns true exactly when the percent change is
at or below the negated threshold, the volume ratio exceeds 1.2, and no
recorded last alert lies within four hours of now; in particular a change
above the negated threshold never fires, and an evaluation within four
hours of the recorded last alert never fires. -/
theorem is_significant_dip_iff (e : Entry) (data : StockData)
    (last_alert : Option ℤ) (now : ℤ) :
    (is_significant_dip e.threshold data last_alert now = true ↔
      data.pct_change ≤ -e.threshold ∧ volumeRatio data > 1.2 ∧
        ¬∃ la, last_alert = some la ∧ now - la < fourHours) ∧
    (data.pct_change > -e.threshold →
      is_significant_dip e.threshold data last_alert now = false) ∧
    (∀ la, last_alert = some la → now - la < fourHours →
      is_significant_dip e.threshold data last_alert now = false) := by
  refine ⟨is_significant_dip_eq_true _ _ _ _, fun hgt => ?_, fun la hla hcd => ?_⟩
  · rw [← Bool.not_eq_true, is_significant_dip_eq_true]
    rintro ⟨h1, -, -⟩
    linarith
  · rw [← Bool.not_eq_true, is_significant_dip_eq_true]
    rintro ⟨-, -, h3⟩
    exact h3 ⟨la, hla, hcd⟩

/-- C1 witness: the policy fires on a 4.5 percent dip at threshold 3 with
ratio 1.5 and no prior alert, and is suppressed 100 seconds after an alert. -/
theorem is_significant_dip_iff_witness :
    is_significant_dip (3 : ℚ) dC1 none 0 = true ∧
    is_significant_dip (3 : ℚ) dC1 (some 0) 100 = false :=
  ⟨((is_significant_dip_iff ⟨3, "Apple"⟩ dC1 none 0).1).mpr
      ⟨by norm_num [dC1], by norm_num [dC1, volumeRatio], by simp⟩,
   (is_significant_dip_iff ⟨3, "Apple"⟩ dC1 (some 0) 100).2.2 0 rfl
      (by norm_num [fourHours])⟩

/-- C7: the severity classification is total in pct_change with inclusive
boundaries: at or below -8 Major, between -8 exclusive and -5 inclusive
Significant, above -5 Detected. -/
theorem alertSeverity_cases (p : ℚ) :
    (p ≤ -8 → alertSeverity p = Severity.major) ∧
    (-8 < p → p ≤ -5 → alertSeverity p = Severity.significant) ∧
    (-5 < p → alertSeverity p = Severity.detected) := by
  refine ⟨fun h => ?_, fun h1 h2 => ?_, fun h => ?_⟩
  · simp [alertSeverity, h]
  · have h8 : ¬p ≤ -8 := by linarith
    simp [alertSeverity, h8, h2]
  · have h8 : ¬p ≤ -8 := by linarith
    have h5 : ¬p ≤ -5 := by linarith
    simp [alertSeverity, h8, h5]

/-- C7 witness: both boundary values classify into the stricter tier, and a
shallower dip is only Detected. -/
theorem alertSeverity_cases_witness :
    alertSeverity (-8) = Severity.major ∧
    alertSeverity (-5) = Severity.significant ∧
    alertSeverity (-4.5) = Severity.detected :=
  ⟨(alertSeverity_cases (-8)).1 (by norm_num),
   (alertSeverity_cases (-5)).2.1 (by norm_num) (by norm_num),
   (alertSeverity_cases (-4.5)).2.2 (by norm_num)⟩

/-- C9: the evaluation is deterministic and reads nothing beyond its
declared inputs: two calls against different engine states agree whenever
the looked-up threshold, the observation, the recorded last alert and the
clock agree; the function returns a Bool and mutates nothing. -/
theorem is_significant_dip_deterministic (w1 w2 : Watched)
    (h1 h2 : PriceHistory) (s1 s2 : String) (data : StockData) (now : ℤ)
    (e1 e2 : Entry)
    (he1 : alookup w1 s1 = some e1) (he2 : alookup w2 s2 = some e2)
    (ht : e1.threshold = e2.threshold)
    (hl : lastAlertOf h1 s1 = lastAlertOf h2 s2) :
    is_significant_dip_s w1 h1 now s1 data =
      is_significant_dip_s w2 h2 now s2 data := by
  simp only [is_significant_dip_s, he1, he2]
  rw [ht, hl]

/-- C9 witness: the same threshold, observation and absent last alert give
the same decision in two unrelated engine states. -/
theorem is_significant_dip_deterministic_witness :
    is_significant_dip_s [("AAPL", ⟨3, "Apple"⟩)] [] 0 "AAPL" dC1 =
      is_significant_dip_s [("TSLA", ⟨9, "Tesla"⟩), ("MSFT", ⟨3, "Microsoft"⟩)]
        [("MSFT", ⟨none, none⟩)] 0 "MSFT" dC1 :=
  is_significant_dip_deterministic _ _ _ _ _ _ dC1 0 ⟨3, "Apple"⟩ ⟨3, "Microsoft"⟩
    (by decide) (by decide) rfl (by decide)

/-- C3: whenever the guard is acquired, is_checking is false again after the
invocation on the normal, exception and cancellation outcomes alike, for
the manual command and the periodic tick, and a subsequent invocation is
accepted rather than rejected as busy. -/
theorem run_guard_always_released (o1 o2 : SweepOutcome) :
    (manual_check_command false o1).is_checking = false ∧
    (periodic_tick false o1).is_checking = false ∧
    (manual_check_command (manual_check_command false o1).is_checking o2).ran
      = true ∧
    (periodic_tick (periodic_tick false o1).is_checking o2).ran = true := by
  cases o1 <;> cases o2 <;> exact ⟨rfl, rfl, rfl, rfl⟩

/-- C2: the interleaving in which the manual command passes its busy check
on line 245, suspends awaiting its reply on line 248, the periodic tick then
acquires the flag and enters check_stocks, and the manual command resumes at
line 249, puts both callers inside check_stocks: two sweeps start and two
are active at once, so the Idle to Running transition is not atomic and a
second concurrent invocation is not rejected. -/
theorem concurrent_triggers_overlap :
    (runSched [0, 1, 0] [manualTask, periodicTask] initBotState).started = 2 ∧
    (runSched [0, 1, 0] [manualTask, periodicTask] initBotState).active = 2 ∧
    (runSched [0, 1, 0] [manualTask, periodicTask] initBotState).maxActive = 2 := by
  decide

/-- C8: the sweep iterates the live watched_stocks, not a snapshot: with
watchlist AAPL, GOOGL, processing AAPL, then an add of TSLA while the sweep
is suspended, makes the next iterator step raise RuntimeError (size changed
during iteration), aborting the sweep after only AAPL; without the mutation
the same sweep finishes both items without error. -/
theorem live_iteration_corrupted :
    (sweepNext (addStockKey "TSLA" (sweepNext
        (startIter ["AAPL", "GOOGL"])))).iterError = true ∧
    (sweepNext (addStockKey "TSLA" (sweepNext
        (startIter ["AAPL", "GOOGL"])))).processed = ["AAPL"] ∧
    (sweepNext (sweepNext (startIter ["AAPL", "GOOGL"]))).iterError = false ∧
    (sweepNext (sweepNext (startIter ["AAPL", "GOOGL"]))).processed
      = ["AAPL", "GOOGL"] := by
  decide

theorem processSymbol_fetch_none (env : Env) (watched : Watched)
    (h : PriceHistory) (symbol : String) (hf : env.fetch symbol = none) :
    processSymbol env watched h symbol = (h, [Event.fetchFailed symbol]) := by
  simp only [processSymbol, hf]

theorem processSymbol_fire_eq (env : Env) (watched : Watched)
    (h : PriceHistory) (symbol : String) (e : Entry) (data : StockData)
    (hf : env.fetch symbol = some data)
    (hw : alookup watched symbol = some e)
    (hfire : is_significant_dip e.threshold data (lastAlertOf h symbol) env.now
      = true) :
    processSymbol env watched h symbol =
      (stampAlert (storeCurrent h symbol data) symbol env.now,
       send_alert env symbol ++ [Event.alertFired symbol]) := by
  have hs : is_significant_dip_s watched (storeCurrent h symbol data)
      env.now symbol data = some true := by
    simp only [is_significant_dip_s, hw, lastAlertOf_storeCurrent, hfire]
  simp only [processSymbol, hf, hs]

theorem processSymbol_no_fire_eq (env : Env) (watched : Watched)
    (h : PriceHistory) (symbol : String) (e : Entry) (data : StockData)
    (hf : env.fetch symbol = some data)
    (hw : alookup watched symbol = some e)
    (hfire : is_significant_dip e.threshold data (lastAlertOf h symbol) env.now
      = false) :
    processSymbol env watched h symbol = (storeCurrent h symbol data, []) := by
  have hs : is_significant_dip_s watched (storeCurrent h symbol data)
      env.now symbol data = some false := by
    simp only [is_significant_dip_s, hw, lastAlertOf_storeCurrent, hfire]
  simp only [processSymbol, hf, hs]

theorem fetchFailed_mem_go (env : Env) (watched : Watched) (symbol : String)
    (hf : env.fetch symbol = none) :
    ∀ (keys : List String) (h : PriceHistory), symbol ∈ keys →
      Event.fetchFailed symbol ∈ (checkStocksGo env watched keys h).2 := by
  intro keys
  induction keys with
  | nil => intro h hmem; cases hmem
  | cons k rest ih =>
    intro h hmem
    simp only [checkStocksGo, List.mem_append]
    rcases List.mem_cons.mp hmem with heq | hmem2
    · subst heq
      rw [processSymbol_fetch_none env watched h symbol hf]
      simp
    · exact Or.inr (ih _ hmem2)

/-- C4 counterexample: a sweep on which the AAPL fetch fails and TSLA fires
returns None: the caller of the trigger receives no SweepResult value, no
counts and no error records, even though the run produced one fetch failure
and one fired alert. -/
theorem check_stocks_no_sweep_result :
    (check_stocks envC4 wC4 []).ret = none ∧
    (check_stocks envC4 wC4 []).events =
      [Event.fetchFailed "AAPL", Event.delivered "TSLA",
       Event.alertFired "TSLA"] := by
  have hfire : is_significant_dip (5 : ℚ) dC4 none 1000 = true := by
    norm_num [is_significant_dip, dC4, volumeRatio, fourHours]
  have hA : processSymbol envC4 wC4 [] "AAPL" = ([], [Event.fetchFailed "AAPL"]) :=
    processSymbol_fetch_none envC4 wC4 [] "AAPL" rfl
  have hB := processSymbol_fire_eq envC4 wC4 [] "TSLA" ⟨5, "Tesla"⟩ dC4 rfl rfl hfire
  have hkeys : wC4.map Prod.fst = ["AAPL", "TSLA"] := rfl
  have hdel : send_alert envC4 "TSLA" = [Event.delivered "TSLA"] := rfl
  simp only [check_stocks, hkeys, checkStocksGo, hA, hB, hdel]
  simp

/-- C4 amended: check_stocks returns no value at all (its Python return
value is None) on every input, and per-item fetch failures never escape the
sweep boundary: each one is captured as a logged event while the loop goes
on to the remaining items. -/
theorem check_stocks_amended (env : Env) (watched : Watched)
    (h : PriceHistory) :
    (check_stocks env watched h).ret = none ∧
    (∀ symbol, symbol ∈ watched.map Prod.fst → env.fetch symbol = none →
      Event.fetchFailed symbol ∈ (check_stocks env watched h).events) := by
  refine ⟨rfl, fun symbol hmem hf => ?_⟩
  exact fetchFailed_mem_go env watched symbol hf _ h hmem

/-- C4 amended witness: the concrete run of the counterexample input, read
through the amended statement. -/
theorem check_stocks_amended_witness :
    (check_stocks envC4 wC4 []).ret = none ∧
    Event.fetchFailed "AAPL" ∈ (check_stocks envC4 wC4 []).events :=
  ⟨(check_stocks_amended envC4 wC4 []).1,
   (check_stocks_amended envC4 wC4 []).2 "AAPL" (by simp [wC4]) rfl⟩

/-- C5: on the watchlist A then B where the fetch for A fails and B
qualifies, the sweep continues past A: exactly one fetch failure is
recorded for A, exactly one alert fires for B, and the last alert of B is
stamped with now. -/
theorem sweep_failure_isolation (A B : String) (eA eB : Entry)
    (h : PriceHistory) (env : Env) (dB : StockData) (hAB : A ≠ B)
    (hfa : env.fetch A = none) (hfb : env.fetch B = some dB)
    (hfire : is_significant_dip eB.threshold dB (lastAlertOf h B) env.now
      = true) :
    ((check_stocks env [(A, eA), (B, eB)] h).events.count
      (Event.fetchFailed A) = 1) ∧
    ((check_stocks env [(A, eA), (B, eB)] h).events.count
      (Event.alertFired B) = 1) ∧
    lastAlertOf (check_stocks env [(A, eA), (B, eB)] h).history B
      = some env.now := by
  have hwB : alookup [(A, eA), (B, eB)] B = some eB := by
    simp [alookup, hAB]
  have hA : processSymbol env [(A, eA), (B, eB)] h A
      = (h, [Event.fetchFailed A]) :=
    processSymbol_fetch_none env [(A, eA), (B, eB)] h A hfa
  have hB := processSymbol_fire_eq env [(A, eA), (B, eB)] h B eB dB hfb hwB hfire
  simp only [check_stocks, checkStocksGo, List.map, hA, hB]
  refine ⟨?_, ?_, lastAlertOf_stampAlert _ _ _⟩ <;>
    cases hdel : env.deliver B <;>
      simp [send_alert, hdel, List.count_cons, List.count_append, List.count_nil]

/-- C5 witness: the concrete two-item run with the AAPL fetch failing and
TSLA qualifying. -/
theorem sweep_failure_isolation_witness :
    ((check_stocks envC5 [("AAPL", ⟨3, "Apple"⟩), ("TSLA", ⟨5, "Tesla"⟩)]
        []).events.count (Event.fetchFailed "AAPL") = 1) ∧
    ((check_stocks envC5 [("AAPL", ⟨3, "Apple"⟩), ("TSLA", ⟨5, "Tesla"⟩)]
        []).events.count (Event.alertFired "TSLA") = 1) ∧
    lastAlertOf (check_stocks envC5 [("AAPL", ⟨3, "Apple"⟩),
        ("TSLA", ⟨5, "Tesla"⟩)] []).history "TSLA" = some 1000 :=
  sweep_failure_isolation "AAPL" "TSLA" ⟨3, "Apple"⟩ ⟨5, "Tesla"⟩ [] envC5 dC5
    (by decide) rfl rfl
    (by show is_significant_dip (5 : ℚ) dC5 none 1000 = true
        norm_num [is_significant_dip, dC5, dC4, volumeRatio, fourHours])

/-- C6: when the evaluation fires for an item, the sweep stamps last_alert
with now and logs the alert as fired whatever the delivery outcome; a
failed delivery is logged as its own event and is never an item error. -/
theorem alert_state_updated_regardless (env : Env) (watched : Watched)
    (h : PriceHistory) (symbol : String) (e : Entry) (data : StockData)
    (hf : env.fetch symbol = some data)
    (hw : alookup watched symbol = some e)
    (hfire : is_significant_dip e.threshold data (lastAlertOf h symbol) env.now
      = true) :
    lastAlertOf (processSymbol env watched h symbol).1 symbol = some env.now ∧
    Event.alertFired symbol ∈ (processSymbol env watched h symbol).2 ∧
    Event.itemError symbol ∉ (processSymbol env watched h symbol).2 ∧
    (env.deliver symbol = false →
      Event.deliveryFailed symbol ∈ (processSymbol env watched h symbol).2) := by
  rw [processSymbol_fire_eq env watched h symbol e data hf hw hfire]
  refine ⟨lastAlertOf_stampAlert _ _ _, by simp, ?_, fun hd => ?_⟩
  · cases hdel : env.deliver symbol <;> simp [send_alert, hdel]
  · simp [send_alert, hd]

/-- C6 witness: a firing item in an environment where every delivery fails
still gets its last_alert stamped and its alert fired. -/
theorem alert_state_updated_regardless_witness :
    lastAlertOf (processSymbol envC6 [("AAPL", ⟨3, "Apple"⟩)] [] "AAPL").1
      "AAPL" = some 2000 ∧
    Event.alertFired "AAPL" ∈
      (processSymbol envC6 [("AAPL", ⟨3, "Apple"⟩)] [] "AAPL").2 ∧
    Event.itemError "AAPL" ∉
      (processSymbol envC6 [("AAPL", ⟨3, "Apple"⟩)] [] "AAPL").2 ∧
    (envC6.deliver "AAPL" = false →
      Event.deliveryFailed "AAPL" ∈
        (processSymbol envC6 [("AAPL", ⟨3, "Apple"⟩)] [] "AAPL").2) :=
  alert_state_updated_regardless envC6 [("AAPL", ⟨3, "Apple"⟩)] [] "AAPL"
    ⟨3, "Apple"⟩ dC1 rfl rfl
    (by show is_significant_dip (3 : ℚ) dC1 none 2000 = true
        norm_num [is_significant_dip, dC1, volumeRatio, fourHours])

/-- C10: a one-row price history makes previous_close fall back to the
current price, so pct_change is exactly zero; with a positive threshold the
dip test then never passes for the produced observation and no alert is
fired for the item on the sweep. -/
theorem single_row_never_alerts (row : Row) (h20 : List Row) (nowF : ℤ)
    (e : Entry) (ht : 0 < e.threshold) :
    ∃ d, get_stock_data (some ([row], h20)) nowF = some d ∧
      d.previous_close = d.current_price ∧ d.pct_change = 0 ∧
      (∀ la now2, is_significant_dip e.threshold d la now2 = false) ∧
      (∀ env watched h symbol, env.fetch symbol = some d →
        alookup watched symbol = some e →
        Event.alertFired symbol ∉ (processSymbol env watched h symbol).2) := by
  obtain ⟨d, hd, hprev, hpct⟩ :
      ∃ d, get_stock_data (some ([row], h20)) nowF = some d ∧
        d.previous_close = d.current_price ∧ d.pct_change = 0 := by
    refine ⟨_, rfl, rfl, ?_⟩
    show pyRound2 (((row.close - row.close) / row.close) * 100) = 0
    rw [sub_self, zero_div, zero_mul]
    norm_num [pyRound2, halfEven]
  have hfire : ∀ la now2, is_significant_dip e.threshold d la now2 = false := by
    intro la now2
    unfold is_significant_dip
    rw [hpct]
    have hneg : ¬(0 : ℚ) ≤ -e.threshold := by linarith
    simp [hneg]
  refine ⟨d, hd, hprev, hpct, hfire, fun env watched h symbol hf hw => ?_⟩
  rw [processSymbol_no_fire_eq env watched h symbol e d hf hw (hfire _ _)]
  simp

/-- C10 witness: a single-row history for a threshold 3 entry yields a zero
pct_change observation that can never fire. -/
theorem single_row_never_alerts_witness :
    ∃ d, get_stock_data (some ([⟨100, 5000⟩], [])) 7 = some d ∧
      d.previous_close = d.current_price ∧ d.pct_change = 0 ∧
      (∀ la now2, is_significant_dip (⟨3, "Apple"⟩ : Entry).threshold d la now2
        = false) ∧
      (∀ env watched h symbol, env.fetch symbol = some d →
        alookup watched symbol = some (⟨3, "Apple"⟩ : Entry) →
        Event.alertFired symbol ∉ (processSymbol env watched h symbol).2) :=
  single_row_never_alerts ⟨100, 5000⟩ [] 7 ⟨3, "Apple"⟩ (by norm_num)

end StockBot
